import Mathlib

set_option maxRecDepth 8000

namespace GifcoAgent

/-!
Shallow embedding of `src/app/agent/base.py` from the gifco-ai repository
(class `RestaurantRecommenderAgent` and the `AgentState` model), together
with the pieces of the data model the agent consumes.  External
collaborators (agent executor, memory, command classifier, character
formatter) are modelled as explicit behaviour parameters, so every method
becomes a total Lean function over those behaviours.
-/

/-! ### Python string primitives

`base.py` uses Python string operations: substring membership
(`"x" in s`), ASCII lowering for the signature-phrase test, truthiness of
optional strings, and `or`-defaulting.  These helpers embed them over Lean
strings (character-list based, executable).
-/

/-- Occurrence of `pat` as a contiguous run inside a character list:
the list-level meaning of Python's `pat in s`. -/
def listContains (pat : List Char) : List Char → Bool
  | [] => pat.isPrefixOf []
  | c :: t => pat.isPrefixOf (c :: t) || listContains pat t

/-- Python's `pat in s` for strings. -/
def strContains (s pat : String) : Bool := listContains pat.data s.data

/-- Python's `s.lower()`, restricted to ASCII letters (the only characters
the agent code ever compares after lowering). -/
def pyLower (s : String) : String := ⟨s.data.map Char.toLower⟩

/-- Python's `v or d` for an optional string `v`: `None` and `""` are
falsy, so they select the default `d`. -/
def pyOr (v : Option String) (d : String) : String :=
  match v with
  | some s => if s = "" then d else s
  | none => d

/-- Embeds the conditional append `if x: msg += label + x + "\n"` used for
the optional query fields (Python truthiness: `None` and `""` add nothing). -/
def optLine (label : String) (v : Option String) : String :=
  match v with
  | some s => if s = "" then "" else label ++ s ++ "\n"
  | none => ""

/-! ### Data model -/

/-- Modelled from the spec: `RestaurantQuery` lives in
`app/commands/models.py`, which is not among the sources; the spec gives it
a query text plus optional place, cuisine, price range and dietary
restrictions — exactly the fields `execute_command` reads. -/
structure RestaurantQuery where
  query : String
  place : Option String := none
  cuisine : Option String := none
  price_range : Option String := none
  dietary_restrictions : Option String := none

/-- Modelled from the spec: the command variants of `app/commands/models.py`
(not among the sources), a tagged variant over search / recommendation /
informational.  `OtherCommand` stands for any Python value that is none of
the three recognized classes, carrying the text `type(command)` prints. -/
inductive Command where
  | SearchCommand (search_query : RestaurantQuery)
  | RecommendationCommand (recommendation_query : RestaurantQuery)
  | InformationalCommand (topic : String)
  | OtherCommand (tyName : String)

/-- Modelled from the spec: `AgentResponse` lives in
`app/models/restaurant.py`, which is not among the sources; the spec gives
it a success flag, a message, an optional error and an optional parsed
command. -/
structure AgentResponse where
  success : Bool
  message : String
  error : Option String := none
  parsed_command : Option Command := none

/-- One chat message: a Python dict with `"role"` and `"content"` keys. -/
structure Message where
  role : String
  content : String

/-- `AgentState` from `base.py`: messages, thread id, optional output. -/
structure AgentState where
  messages : List Message
  thread_id : String
  output : Option String := none

/-- A LangChain tool as the agent reads it: a name and a description. -/
structure Tool where
  name : String
  description : String

/-- The `input_dict` built by `invoke` and handed to the agent executor
(keys `input`, `agent_scratchpad`, `tools`, `tool_names`, `thread_id`, and
`context` only when memory enrichment succeeds with a truthy value). -/
structure ExecInput where
  input : String
  agent_scratchpad : String
  tools : String
  tool_names : String
  thread_id : String
  context : Option String := none

/-- Behaviour of the optional memory collaborator's
`load_memory_variables`: absent memory, a successful load carrying the
optional `"enhanced_context"` value, or a raised exception with text `msg`. -/
inductive MemBehavior where
  | noMemory
  | loads (enhanced_context : Option String)
  | raises (msg : String)

/-- Outcome of `asyncio.wait_for(self.agent_executor.ainvoke(input_dict), 20.0)`:
a response dict whose `"output"` key may be absent, a wall-clock timeout
(`asyncio.TimeoutError`), or an arbitrary exception with text `msg`. -/
inductive ExecOutcome where
  | returns (output : Option String)
  | timedOut
  | raises (msg : String)

/-! ### The agent methods of `base.py` -/

/-- `_validate_request` (base.py lines 318-334): the safety validator is
commented out, so validation always passes. -/
def validate_request (_state : AgentState) : Bool := true

/-- The `input_dict` of `invoke` (base.py lines 352-369), including the
best-effort memory enrichment: `context` is added only when memory is
present, the load succeeds, and the `"enhanced_context"` value is truthy. -/
def mkInputDict (ts : List Tool) (firstContent threadId : String) (mem : MemBehavior) : ExecInput :=
  let base : ExecInput :=
    { input := firstContent
      agent_scratchpad := ""
      tools := String.intercalate "\n" (ts.map fun t => t.name ++ ": " ++ t.description)
      tool_names := String.intercalate ", " (ts.map fun t => t.name)
      thread_id := threadId }
  match mem with
  | MemBehavior.noMemory => base
  | MemBehavior.loads ec =>
    match ec with
    | some c => if c = "" then base else { base with context := some c }
    | none => base
  | MemBehavior.raises _ => base

/-- `invoke` (base.py lines 336-393), total over the behaviour parameters.
The Python method never raises: validation failure, the empty-messages
index error (`state.messages[0]` raising `IndexError`, absorbed by the
enclosing catch-all), executor success, `asyncio.TimeoutError`, and any
other exception all return the state with `output` set. -/
def invoke (ts : List Tool) (mem : MemBehavior) (exec : ExecInput → ExecOutcome)
    (state : AgentState) : AgentState :=
  if validate_request state then
    match state.messages with
    | [] => { state with output := some "Error processing request: list index out of range" }
    | m :: _ =>
      match exec (mkInputDict ts m.content state.thread_id mem) with
      | ExecOutcome.returns out => { state with output := some (out.getD "No output generated") }
      | ExecOutcome.timedOut => { state with output := some "Agent execution timed out after 20 seconds" }
      | ExecOutcome.raises e => { state with output := some ("Error processing request: " ++ e) }
  else
    { state with output := some "Request validation failed" }

/-- `handle_request` (base.py lines 395-439).  `threadId` stands for the
fresh `uuid.uuid4()` and `parse` for `command_parser.parse_request`
(classification result or raised exception).  Every step of the embedded
body is total, so the method's outer catch-all is unreachable here; the
function always returns an `AgentResponse`. -/
def handle_request (ts : List Tool) (mem : MemBehavior) (exec : ExecInput → ExecOutcome)
    (parse : String → Except String Command) (threadId request : String) : AgentResponse :=
  let state : AgentState := { messages := [{ role := "user", content := request }], thread_id := threadId }
  let result_state := invoke ts mem exec state
  match result_state.output with
  | some s =>
    if s = "" then
      { success := false, message := "No response generated", error := some "Agent did not generate output" }
    else
      match parse request with
      | Except.ok command => { success := true, message := s, parsed_command := some command }
      | Except.error _ => { success := true, message := s }
  | none =>
    { success := false, message := "No response generated", error := some "Agent did not generate output" }

/-- The signature-phrase test of the search branch (base.py line 470):
`"butter chicken" in query.query.lower()`. -/
def hasButterChicken (q : String) : Bool := strContains (pyLower q) "butter chicken"

/-- The header of the search response (base.py lines 457-467): query echo
plus one optional line per truthy optional field. -/
def headerMsg (search_query : RestaurantQuery) : String :=
  "🔍 **Searching for restaurants...**\n\n"
  ++ ("**Query:** " ++ search_query.query ++ "\n")
  ++ optLine "**Location:** " search_query.place
  ++ optLine "**Cuisine:** " search_query.cuisine
  ++ optLine "**Price Range:** " search_query.price_range
  ++ optLine "**Dietary Restrictions:** " search_query.dietary_restrictions

/-- The mock butter-chicken results block (base.py lines 471-482). -/
def butterMsg (place : Option String) : String :=
  "\n🍽️ **Top Results:**\n\n"
  ++ ("1. **Karim\x27s** - " ++ pyOr place "Delhi" ++ "\n")
  ++ "   ⭐ 4.2/5 | Indian Cuisine | Moderate Price\n"
  ++ "   Famous for authentic butter chicken and mughlai cuisine\n\n"
  ++ ("2. **Punjabi By Nature** - " ++ pyOr place "Multiple Locations" ++ "\n")
  ++ "   ⭐ 4.0/5 | North Indian | Mid-Range\n"
  ++ "   Known for rich, creamy butter chicken\n\n"
  ++ ("3. **Moti Mahal Delux** - " ++ pyOr place "Delhi" ++ "\n")
  ++ "   ⭐ 4.1/5 | Indian | Moderate\n"
  ++ "   Legendary restaurant, birthplace of butter chicken\n"

/-- The generic search response block (base.py lines 484-487). -/
def genericMsg (search_query : RestaurantQuery) : String :=
  "\n🍽️ **Found restaurants matching your search!**\n\n"
  ++ ("Here are some great options in " ++ pyOr search_query.place "your area"
      ++ " for " ++ search_query.query ++ ".\n")
  ++ "I\x27d be happy to provide more specific recommendations if you can tell me more about what you\x27re looking for!"

/-- The full search-branch message of `execute_command` (base.py lines 451-489). -/
def searchMsg (search_query : RestaurantQuery) : String :=
  headerMsg search_query ++
    (if hasButterChicken search_query.query then butterMsg search_query.place
     else genericMsg search_query)

/-- The recommendation-branch message of `execute_command` (base.py lines 491-508). -/
def recMsg (recommendation_query : RestaurantQuery) : String :=
  "🎯 **Restaurant Recommendations**\n\n"
  ++ ("Based on your request: \x27" ++ recommendation_query.query ++ "\x27\n")
  ++ (match recommendation_query.place with
      | some p => if p = "" then "" else "Location: " ++ p ++ "\n\n"
      | none => "")
  ++ "Here are some great options I\x27d recommend:\n\n"
  ++ "• Look for highly-rated local favorites\n"
  ++ ("• Consider trying authentic cuisine specific to "
      ++ pyOr recommendation_query.place "the area" ++ "\n")
  ++ "• Check recent reviews for current quality\n\n"
  ++ "Would you like me to search for something more specific?"

/-- The fixed help text of the informational branch (base.py lines 514-522),
verbatim (including the two trailing spaces after "spots"). -/
def helpMsg : String :=
  "I can help you find great restaurants! I can:\n\n- Search for restaurants by location and cuisine\n- Find popular dining spots  \n- Recommend places based on your preferences\n- Provide restaurant details and information\n- Help with specific food cravings like \"best butter chicken\"\n\nJust ask me what you\x27re looking for!"

/-- `execute_command` (base.py lines 441-536).  `format_response` stands for
the character formatter collaborator (`app/agent/character/character.py` is
not among the sources; per the spec it is a total topic-to-string function).
Every branch of the embedded body is total, so the method's catch-all is
unreachable here. -/
def execute_command (format_response : String → String) (command : Command) : AgentResponse :=
  match command with
  | Command.SearchCommand search_query =>
    { success := true, message := searchMsg search_query }
  | Command.RecommendationCommand recommendation_query =>
    { success := true, message := recMsg recommendation_query }
  | Command.InformationalCommand topic =>
    if topic = "help" then { success := true, message := helpMsg }
    else { success := true, message := format_response topic }
  | Command.OtherCommand tyName =>
    { success := false, message := "Unknown command type: " ++ tyName,
      error := some "Invalid command type" }

/-- Data-model invariant on `AgentResponse` stated by the spec: success
implies a non-empty message and no error; failure implies an error. -/
def responseInvariant (r : AgentResponse) : Prop :=
  (r.success = true → r.message ≠ "" ∧ r.error = none) ∧
  (r.success = false → r.error.isSome = true)

/-! ### General lemmas about the string primitives -/

theorem nil_isPrefixOf (l : List Char) : List.isPrefixOf [] l = true := by
  cases l <;> rfl

theorem isPrefixOf_append_of (p a b : List Char) (h : p.isPrefixOf a = true) :
    p.isPrefixOf (a ++ b) = true := by
  induction p generalizing a with
  | nil => exact nil_isPrefixOf _
  | cons x xs ih =>
    cases a with
    | nil => simp [List.isPrefixOf] at h
    | cons y ys =>
      simp only [List.cons_append, List.isPrefixOf, Bool.and_eq_true] at h ⊢
      exact ⟨h.1, ih ys h.2⟩

theorem isPrefixOf_refl_char (p : List Char) : p.isPrefixOf p = true := by
  induction p with
  | nil => rfl
  | cons c t ih => simp [List.isPrefixOf, ih]

theorem listContains_nil_pat (b : List Char) : listContains [] b = true := by
  cases b with
  | nil => rfl
  | cons c t => simp [listContains, List.isPrefixOf]

theorem listContains_append_r (pat a b : List Char) (h : listContains pat b = true) :
    listContains pat (a ++ b) = true := by
  induction a with
  | nil => exact h
  | cons x xs ih =>
    simp only [List.cons_append, listContains, Bool.or_eq_true]
    exact Or.inr ih

theorem listContains_append_l (pat a b : List Char) (h : listContains pat a = true) :
    listContains pat (a ++ b) = true := by
  induction a with
  | nil =>
    cases pat with
    | nil => exact listContains_nil_pat b
    | cons p ps => simp [listContains, List.isPrefixOf] at h
  | cons x xs ih =>
    simp only [listContains, Bool.or_eq_true] at h
    simp only [List.cons_append, listContains, Bool.or_eq_true]
    cases h with
    | inl hl => exact Or.inl (isPrefixOf_append_of pat (x :: xs) b hl)
    | inr hr => exact Or.inr (ih hr)

theorem listContains_self (pat : List Char) : listContains pat pat = true := by
  cases pat with
  | nil => rfl
  | cons c t => simp [listContains, isPrefixOf_refl_char]

theorem strContains_app_r (s t pat : String) (h : strContains t pat = true) :
    strContains (s ++ t) pat = true := by
  unfold strContains at h ⊢
  rw [String.data_append]
  exact listContains_append_r pat.data s.data t.data h

theorem strContains_app_l (s t pat : String) (h : strContains s pat = true) :
    strContains (s ++ t) pat = true := by
  unfold strContains at h ⊢
  rw [String.data_append]
  exact listContains_append_l pat.data s.data t.data h

theorem strContains_self (s : String) : strContains s s = true :=
  listContains_self s.data

theorem append_data_ne_nil (s t : String) (hs : s.data ≠ []) : (s ++ t).data ≠ [] := by
  rw [String.data_append]
  intro h
  exact hs (List.append_eq_nil.mp h).1

theorem ne_empty_of_data_ne_nil (s : String) (h : s.data ≠ []) : s ≠ "" := by
  intro he
  rw [he] at h
  exact h rfl

/-- The search-branch message always starts with the fixed search header,
hence is never empty. -/
theorem searchMsg_ne_empty (search_query : RestaurantQuery) : searchMsg search_query ≠ "" := by
  apply ne_empty_of_data_ne_nil
  unfold searchMsg headerMsg
  apply append_data_ne_nil
  apply append_data_ne_nil
  apply append_data_ne_nil
  apply append_data_ne_nil
  apply append_data_ne_nil
  apply append_data_ne_nil
  decide

/-- The recommendation-branch message always starts with the fixed
recommendation header, hence is never empty. -/
theorem recMsg_ne_empty (recommendation_query : RestaurantQuery) : recMsg recommendation_query ≠ "" := by
  apply ne_empty_of_data_ne_nil
  unfold recMsg
  apply append_data_ne_nil
  apply append_data_ne_nil
  apply append_data_ne_nil
  apply append_data_ne_nil
  apply append_data_ne_nil
  apply append_data_ne_nil
  apply append_data_ne_nil
  decide

/-- Error texts built by prefixing a non-empty literal are non-empty. -/
theorem err_prefix_ne_empty (e : String) : "Error processing request: " ++ e ≠ "" :=
  ne_empty_of_data_ne_nil _ (append_data_ne_nil _ _ (by decide))

/-! ### Claim theorems -/

/-- C5: `execute_command` on an `InformationalCommand` with topic `"help"`
returns success with the fixed multi-line capability summary verbatim; on
any other topic it returns success with exactly the character formatter's
output for that topic. -/
theorem C5_informational_dispatch (format_response : String → String) (topic : String) :
    execute_command format_response (Command.InformationalCommand "help") =
      { success := true, message := helpMsg } ∧
    (topic ≠ "help" →
      execute_command format_response (Command.InformationalCommand topic) =
        { success := true, message := format_response topic }) := by
  constructor
  · rfl
  · intro h
    simp [execute_command, h]

/-- C5 witness: the help topic yields the fixed capability summary and the
topic `"hours"` yields exactly the formatter's output. -/
theorem C5_informational_dispatch_witness :
    execute_command (fun t => "about: " ++ t) (Command.InformationalCommand "help") =
      { success := true, message := helpMsg } ∧
    execute_command (fun t => "about: " ++ t) (Command.InformationalCommand "hours") =
      { success := true, message := "about: " ++ "hours" } :=
  ⟨(C5_informational_dispatch (fun t => "about: " ++ t) "hours").1,
   (C5_informational_dispatch (fun t => "about: " ++ t) "hours").2 (by decide)⟩

/-- C6: `execute_command` on any command that is none of the three
recognized variants returns success=false with the fixed error sentinel
"Invalid command type" (and the "Unknown command type" message). -/
theorem C6_unknown_command (format_response : String → String) (tyName : String) :
    execute_command format_response (Command.OtherCommand tyName) =
      { success := false, message := "Unknown command type: " ++ tyName,
        error := some "Invalid command type" } := rfl

/-- C7: `invoke` never raises.  When the wall-clock timeout fires it
returns the state normally with the fixed timeout text as output, and when
the executor raises any other exception it returns the state normally with
an output derived from that exception's text.  (Totality itself is
structural: `invoke` is a function into `AgentState`.) -/
theorem C7_invoke_absorbs_failures (ts : List Tool) (mem : MemBehavior) (state : AgentState)
    (h : state.messages ≠ []) (e : String) :
    (invoke ts mem (fun _ => ExecOutcome.timedOut) state).output =
      some "Agent execution timed out after 20 seconds" ∧
    (invoke ts mem (fun _ => ExecOutcome.raises e) state).output =
      some ("Error processing request: " ++ e) := by
  cases hm : state.messages with
  | nil => exact absurd hm h
  | cons m rest =>
    constructor
    · simp [invoke, validate_request, hm]
    · simp [invoke, validate_request, hm]

/-- C7 witness: at a one-message state, timeout and an exception "boom"
produce the stated outputs. -/
theorem C7_invoke_absorbs_failures_witness :
    (invoke [] MemBehavior.noMemory (fun _ => ExecOutcome.timedOut)
        { messages := [{ role := "user", content := "hi" }], thread_id := "t" }).output =
      some "Agent execution timed out after 20 seconds" ∧
    (invoke [] MemBehavior.noMemory (fun _ => ExecOutcome.raises "boom")
        { messages := [{ role := "user", content := "hi" }], thread_id := "t" }).output =
      some ("Error processing request: " ++ "boom") :=
  C7_invoke_absorbs_failures [] MemBehavior.noMemory
    { messages := [{ role := "user", content := "hi" }], thread_id := "t" }
    (by exact List.cons_ne_nil _ _) "boom"

/-- C8: when the memory collaborator's load raises, `invoke` still
completes and behaves exactly as with no memory at all: the whole run is
equal to the memory-less run, and the input dict handed to the executor
carries no context. -/
theorem C8_memory_failure_ignored (ts : List Tool) (e : String)
    (exec : ExecInput → ExecOutcome) (state : AgentState) (firstContent threadId : String) :
    invoke ts (MemBehavior.raises e) exec state = invoke ts MemBehavior.noMemory exec state ∧
    (mkInputDict ts firstContent threadId (MemBehavior.raises e)).context = none := by
  constructor
  · cases hm : state.messages with
    | nil => simp [invoke, validate_request, hm]
    | cons m rest => simp [invoke, validate_request, hm, mkInputDict]
  · rfl

/-- C10: calling `invoke` directly on a state with an empty messages list
does not raise: the out-of-range first-message access is absorbed by the
method's catch-all and the state comes back with an error-describing
output. -/
theorem C10_empty_messages_absorbed (ts : List Tool) (mem : MemBehavior)
    (exec : ExecInput → ExecOutcome) (state : AgentState) (h : state.messages = []) :
    (invoke ts mem exec state).output =
      some "Error processing request: list index out of range" := by
  simp [invoke, validate_request, h]

/-- C10 witness: the empty state produces the index-error output. -/
theorem C10_empty_messages_absorbed_witness :
    (invoke [] MemBehavior.noMemory (fun _ => ExecOutcome.returns none)
        { messages := [], thread_id := "t" }).output =
      some "Error processing request: list index out of range" :=
  C10_empty_messages_absorbed [] MemBehavior.noMemory (fun _ => ExecOutcome.returns none)
    { messages := [], thread_id := "t" } rfl

/-- C1 counterexample: when the loop driver's timeout path fires,
`handle_request` does NOT return success=false with a timeout error — it
returns success=true carrying the timeout text as its message, with no
error field at all. -/
theorem C1_timeout_counterexample :
    (handle_request [] MemBehavior.noMemory (fun _ => ExecOutcome.timedOut)
        (fun _ => Except.error "nope") "tid" "find pasta").success = true ∧
    (handle_request [] MemBehavior.noMemory (fun _ => ExecOutcome.timedOut)
        (fun _ => Except.error "nope") "tid" "find pasta").message =
      "Agent execution timed out after 20 seconds" ∧
    (handle_request [] MemBehavior.noMemory (fun _ => ExecOutcome.timedOut)
        (fun _ => Except.error "nope") "tid" "find pasta").error = none := by
  refine ⟨rfl, rfl, rfl⟩

/-- C1 (amended): for every request on which the loop driver's timeout path
fires, `handle_request` returns success=true whose message equals the fixed
timeout-indicating text "Agent execution timed out after 20 seconds", and
no error is attached: the timeout indication lands in the message, not in
an error with success=false. -/
theorem C1_timeout_surfaces_in_message (ts : List Tool) (mem : MemBehavior)
    (parse : String → Except String Command) (threadId request : String) :
    (handle_request ts mem (fun _ => ExecOutcome.timedOut) parse threadId request).success = true ∧
    (handle_request ts mem (fun _ => ExecOutcome.timedOut) parse threadId request).message =
      "Agent execution timed out after 20 seconds" ∧
    (handle_request ts mem (fun _ => ExecOutcome.timedOut) parse threadId request).error = none := by
  cases hp : parse request with
  | ok c => refine ⟨?_, ?_, ?_⟩ <;> simp [handle_request, invoke, validate_request, hp]
  | error m => refine ⟨?_, ?_, ?_⟩ <;> simp [handle_request, invoke, validate_request, hp]

/-- C2 counterexample: an input making the loop driver raise does NOT yield
success=false with the exception's text as the error — the driver absorbs
the exception into its output, so `handle_request` returns success=true
with the explanatory text as its message and no error. -/
theorem C2_exception_counterexample :
    (handle_request [] MemBehavior.noMemory (fun _ => ExecOutcome.raises "boom")
        (fun _ => Except.error "nope") "tid" "hello").success = true ∧
    (handle_request [] MemBehavior.noMemory (fun _ => ExecOutcome.raises "boom")
        (fun _ => Except.error "nope") "tid" "hello").message =
      "Error processing request: boom" ∧
    (handle_request [] MemBehavior.noMemory (fun _ => ExecOutcome.raises "boom")
        (fun _ => Except.error "nope") "tid" "hello").error = none := by
  refine ⟨rfl, rfl, rfl⟩

/-- C2 (amended): for every input string, `handle_request` returns an
`AgentResponse` and never propagates an exception (the embedding is a total
function into `AgentResponse`).  When the loop driver raises, the driver
itself converts the exception into its output, so `handle_request` returns
success=true whose message is "Error processing request: " followed by the
exception's text, with no error field. -/
theorem C2_never_raises (ts : List Tool) (mem : MemBehavior)
    (parse : String → Except String Command) (threadId request e : String) :
    (handle_request ts mem (fun _ => ExecOutcome.raises e) parse threadId request).success = true ∧
    (handle_request ts mem (fun _ => ExecOutcome.raises e) parse threadId request).message =
      "Error processing request: " ++ e ∧
    (handle_request ts mem (fun _ => ExecOutcome.raises e) parse threadId request).error = none := by
  have hne := err_prefix_ne_empty e
  cases hp : parse request with
  | ok c => refine ⟨?_, ?_, ?_⟩ <;> simp [handle_request, invoke, validate_request, hp, hne]
  | error m => refine ⟨?_, ?_, ?_⟩ <;> simp [handle_request, invoke, validate_request, hp, hne]

/-- C9: `handle_request` output handling.  If the driven state carries a
non-empty output `s`, the response is success=true with message `s`; when
classification of the original text succeeds the parsed command is attached
as `parsed_command`, and a classification failure is swallowed, returning
the same success response without it.  If the output is empty or absent,
the response is the fixed failure envelope "No response generated" /
"Agent did not generate output". -/
theorem C9_output_handling (ts : List Tool) (mem : MemBehavior)
    (exec : ExecInput → ExecOutcome) (parse : String → Except String Command)
    (threadId request : String) :
    (∀ s : String,
      (invoke ts mem exec
          { messages := [{ role := "user", content := request }], thread_id := threadId }).output = some s →
      s ≠ "" →
      ((∀ c, parse request = Except.ok c →
          handle_request ts mem exec parse threadId request =
            { success := true, message := s, parsed_command := some c }) ∧
       (∀ m, parse request = Except.error m →
          handle_request ts mem exec parse threadId request =
            { success := true, message := s }))) ∧
    (((invoke ts mem exec
          { messages := [{ role := "user", content := request }], thread_id := threadId }).output = none ∨
      (invoke ts mem exec
          { messages := [{ role := "user", content := request }], thread_id := threadId }).output = some "") →
      handle_request ts mem exec parse threadId request =
        { success := false, message := "No response generated",
          error := some "Agent did not generate output" }) := by
  constructor
  · intro s hout hs
    constructor
    · intro c hc
      simp [handle_request, hout, hs, hc]
    · intro m hm
      simp [handle_request, hout, hs, hm]
  · intro hout
    cases hout with
    | inl h => simp [handle_request, h]
    | inr h => simp [handle_request, h]

/-- C9 witness: a driver output "hi" yields success carrying "hi" (both
with a successfully classified command and with a swallowed classification
failure), and a driver output "" yields the fixed failure envelope. -/
theorem C9_output_handling_witness :
    handle_request [] MemBehavior.noMemory (fun _ => ExecOutcome.returns (some "hi"))
        (fun _ => Except.ok (Command.InformationalCommand "help")) "t" "q" =
      { success := true, message := "hi",
        parsed_command := some (Command.InformationalCommand "help") } ∧
    handle_request [] MemBehavior.noMemory (fun _ => ExecOutcome.returns (some "hi"))
        (fun _ => Except.error "nope") "t" "q" =
      { success := true, message := "hi" } ∧
    handle_request [] MemBehavior.noMemory (fun _ => ExecOutcome.returns (some ""))
        (fun _ => Except.error "nope") "t" "q" =
      { success := false, message := "No response generated",
        error := some "Agent did not generate output" } :=
  ⟨((C9_output_handling [] MemBehavior.noMemory (fun _ => ExecOutcome.returns (some "hi"))
      (fun _ => Except.ok (Command.InformationalCommand "help")) "t" "q").1 "hi" rfl
      (by decide)).1 _ rfl,
   ((C9_output_handling [] MemBehavior.noMemory (fun _ => ExecOutcome.returns (some "hi"))
      (fun _ => Except.error "nope") "t" "q").1 "hi" rfl (by decide)).2 _ rfl,
   (C9_output_handling [] MemBehavior.noMemory (fun _ => ExecOutcome.returns (some ""))
      (fun _ => Except.error "nope") "t" "q").2 (Or.inr rfl)⟩

/-- C3 counterexample: the invariant does not hold of every response.  When
the character formatter returns the empty string for a non-help topic,
`execute_command` answers success=true with an empty message, violating
"success implies non-empty message". -/
theorem C3_invariant_counterexample :
    ¬ responseInvariant (execute_command (fun _ => "") (Command.InformationalCommand "hours")) := by
  intro h
  exact (h.1 rfl).1 rfl

/-- C3 (amended): every `AgentResponse` produced by `handle_request`
satisfies the data-model invariant, and every `AgentResponse` produced by
`execute_command` satisfies it provided the character formatter never
returns the empty string (without that proviso, an empty formatter output
yields success=true with an empty message). -/
theorem C3_response_invariant (ts : List Tool) (mem : MemBehavior)
    (exec : ExecInput → ExecOutcome) (parse : String → Except String Command)
    (threadId request : String) (format_response : String → String)
    (hfmt : ∀ t, format_response t ≠ "") (c : Command) :
    responseInvariant (handle_request ts mem exec parse threadId request) ∧
    responseInvariant (execute_command format_response c) := by
  constructor
  · cases hout : (invoke ts mem exec
        { messages := [{ role := "user", content := request }], thread_id := threadId }).output with
    | none =>
      simp [handle_request, hout, responseInvariant]
    | some s =>
      by_cases hs : s = ""
      · simp [handle_request, hout, hs, responseInvariant]
      · cases hp : parse request with
        | ok cmd =>
          simp only [handle_request, hout, hs, hp]
          exact ⟨fun _ => ⟨by simpa using hs, rfl⟩, fun h => by simp at h⟩
        | error m =>
          simp only [handle_request, hout, hs, hp]
          exact ⟨fun _ => ⟨by simpa using hs, rfl⟩, fun h => by simp at h⟩
  · cases c with
    | SearchCommand q =>
      exact ⟨fun _ => ⟨searchMsg_ne_empty q, rfl⟩, fun h => by simp [execute_command] at h⟩
    | RecommendationCommand q =>
      exact ⟨fun _ => ⟨recMsg_ne_empty q, rfl⟩, fun h => by simp [execute_command] at h⟩
    | InformationalCommand topic =>
      by_cases ht : topic = "help"
      · subst ht
        have hx : execute_command format_response (Command.InformationalCommand "help") =
            { success := true, message := helpMsg } := rfl
        rw [hx]
        exact ⟨fun _ => ⟨by decide, rfl⟩, fun h => by simp at h⟩
      · simp only [execute_command, if_neg ht]
        exact ⟨fun _ => ⟨hfmt topic, rfl⟩, fun h => by simp at h⟩
    | OtherCommand ty =>
      exact ⟨fun h => by simp [execute_command] at h, fun _ => rfl⟩

/-- C3 witness: with a formatter that answers "ok" for every topic, both a
concrete `handle_request` run and a concrete dispatched command satisfy the
invariant. -/
theorem C3_response_invariant_witness :
    responseInvariant (handle_request [] MemBehavior.noMemory
      (fun _ => ExecOutcome.returns (some "hi")) (fun _ => Except.error "nope") "t" "q") ∧
    responseInvariant (execute_command (fun _ => "ok") (Command.InformationalCommand "hours")) :=
  C3_response_invariant [] MemBehavior.noMemory (fun _ => ExecOutcome.returns (some "hi"))
    (fun _ => Except.error "nope") "t" "q" (fun _ => "ok") (fun _ => show "ok" ≠ "" by decide)
    (Command.InformationalCommand "hours")

/-- C4 counterexample: a query that does not contain "butter chicken" takes
the generic branch, yet its response can still mention an example
establishment, because the query text is echoed into the message: the query
"Moti Mahal Delux" yields a generic-branch message containing
"Moti Mahal Delux". -/
theorem C4_search_counterexample :
    hasButterChicken "Moti Mahal Delux" = false ∧
    strContains (execute_command (fun t => t)
        (Command.SearchCommand { query := "Moti Mahal Delux" })).message "Moti Mahal Delux" = true := by
  constructor
  · decide
  · have hmsg : (execute_command (fun t : String => t)
        (Command.SearchCommand { query := "Moti Mahal Delux" })).message =
          searchMsg { query := "Moti Mahal Delux" } := rfl
    rw [hmsg]
    have hb : searchMsg { query := "Moti Mahal Delux" } =
        headerMsg { query := "Moti Mahal Delux" } ++ genericMsg { query := "Moti Mahal Delux" } := by
      simp [searchMsg, (by decide : hasButterChicken "Moti Mahal Delux" = false)]
    rw [hb]
    apply strContains_app_l
    unfold headerMsg
    apply strContains_app_l
    apply strContains_app_l
    apply strContains_app_l
    apply strContains_app_l
    apply strContains_app_r
    decide

/-- C4 (amended): on a `SearchCommand` whose query text contains
"butter chicken" (case-insensitively) the response message contains all
three example establishments, and additionally contains "Delhi" when
place="Delhi"; on any other query text the dispatcher takes the generic
branch — the message is exactly the fixed header plus the generic template
rendered from the query's own fields (so it mentions an example
establishment only when those fields do, as the counterexample shows). -/
theorem C4_search_dispatch (format_response : String → String) (search_query : RestaurantQuery) :
    (hasButterChicken search_query.query = true →
      strContains (execute_command format_response
          (Command.SearchCommand search_query)).message "Karim\x27s" = true ∧
      strContains (execute_command format_response
          (Command.SearchCommand search_query)).message "Punjabi By Nature" = true ∧
      strContains (execute_command format_response
          (Command.SearchCommand search_query)).message "Moti Mahal Delux" = true ∧
      (search_query.place = some "Delhi" →
        strContains (execute_command format_response
            (Command.SearchCommand search_query)).message "Delhi" = true)) ∧
    (hasButterChicken search_query.query = false →
      (execute_command format_response (Command.SearchCommand search_query)).message =
        headerMsg search_query ++ genericMsg search_query) := by
  have hmsg : (execute_command format_response (Command.SearchCommand search_query)).message =
      searchMsg search_query := rfl
  rw [hmsg]
  constructor
  · intro hbc
    have hb : searchMsg search_query =
        headerMsg search_query ++ butterMsg search_query.place := by
      simp [searchMsg, hbc]
    rw [hb]
    refine ⟨?_, ?_, ?_, ?_⟩
    · apply strContains_app_r
      unfold butterMsg
      apply strContains_app_l
      apply strContains_app_l
      apply strContains_app_l
      apply strContains_app_l
      apply strContains_app_l
      apply strContains_app_l
      apply strContains_app_l
      apply strContains_app_l
      apply strContains_app_r
      apply strContains_app_l
      apply strContains_app_l
      decide
    · apply strContains_app_r
      unfold butterMsg
      apply strContains_app_l
      apply strContains_app_l
      apply strContains_app_l
      apply strContains_app_l
      apply strContains_app_l
      apply strContains_app_r
      apply strContains_app_l
      apply strContains_app_l
      decide
    · apply strContains_app_r
      unfold butterMsg
      apply strContains_app_l
      apply strContains_app_l
      apply strContains_app_r
      apply strContains_app_l
      apply strContains_app_l
      decide
    · intro hp
      apply strContains_app_l
      unfold headerMsg
      apply strContains_app_l
      apply strContains_app_l
      apply strContains_app_l
      apply strContains_app_r
      rw [hp]
      decide
  · intro hbc
    simp [searchMsg, hbc]

/-- C4 witness: "find me good butter chicken in Delhi" with place="Delhi"
yields a message containing all three example establishments and "Delhi";
"vegan sushi" yields exactly the generic-branch message. -/
theorem C4_search_dispatch_witness :
    strContains (execute_command (fun t => t)
        (Command.SearchCommand
          { query := "find me good butter chicken in Delhi", place := some "Delhi" })).message "Karim\x27s" = true ∧
    strContains (execute_command (fun t => t)
        (Command.SearchCommand
          { query := "find me good butter chicken in Delhi", place := some "Delhi" })).message "Punjabi By Nature" = true ∧
    strContains (execute_command (fun t => t)
        (Command.SearchCommand
          { query := "find me good butter chicken in Delhi", place := some "Delhi" })).message "Moti Mahal Delux" = true ∧
    strContains (execute_command (fun t => t)
        (Command.SearchCommand
          { query := "find me good butter chicken in Delhi", place := some "Delhi" })).message "Delhi" = true ∧
    (execute_command (fun t => t) (Command.SearchCommand { query := "vegan sushi" })).message =
      headerMsg { query := "vegan sushi" } ++ genericMsg { query := "vegan sushi" } := by
  refine ⟨?_, ?_, ?_, ?_, ?_⟩
  · exact ((C4_search_dispatch (fun t => t) _).1 (by decide)).1
  · exact ((C4_search_dispatch (fun t => t) _).1 (by decide)).2.1
  · exact ((C4_search_dispatch (fun t => t) _).1 (by decide)).2.2.1
  · exact ((C4_search_dispatch (fun t => t) _).1 (by decide)).2.2.2 rfl
  · exact (C4_search_dispatch (fun t => t) _).2 (by decide)

end GifcoAgent
